import Mathlib

/-!
Verification development for the space-x-data repository.

The scripts in the repository normalize loosely typed JSON launch feeds
into tabular records.  We embed the dynamic Python values as the `Json`
inductive below, Python dictionaries as association lists, and each
normalization routine as a Lean function that mirrors the source,
returning `Except String` where the Python code can raise.
-/

set_option autoImplicit false

/-- Model of a dynamically typed Python/JSON value as the scripts receive
them from the upstream feed. -/
inductive Json where
  | null
  | bool (b : Bool)
  | num (n : Int)
  | str (s : String)
  | arr (xs : List Json)
  | obj (fields : List (String × Json))

/-- A Python dictionary with string keys, as produced by `json()` decoding. -/
abbrev PyDict := List (String × Json)

/-- Python truthiness (`if x:`) for the modelled values: `None`, `False`,
zero, the empty string and empty containers are falsy. -/
def Json.truthy : Json → Bool
  | Json.null => false
  | Json.bool b => b
  | Json.num n => n != 0
  | Json.str s => s != ""
  | Json.arr xs => !xs.isEmpty
  | Json.obj fs => !fs.isEmpty

/-- Python `str(x)` on the modelled values, used by the scripts when a
reference field is not a dictionary (`str(rocket)`). -/
def Json.pyStr : Json → String
  | Json.null => "None"
  | Json.bool true => "True"
  | Json.bool false => "False"
  | Json.num n => toString n
  | Json.str s => s
  | Json.arr _ => "[...]"
  | Json.obj _ => "{...}"

/-- Python `d.get(key, default)` on a dictionary. -/
def jget (fs : PyDict) (k : String) (d : Json) : Json :=
  match fs.lookup k with
  | some v => v
  | none => d

/-- Python iteration (`for x in v`): lists yield elements, strings yield
one-character strings, dictionaries yield their keys; other values are
not iterable (a `TypeError` in the source). -/
def pyIter : Json → Option (List Json)
  | Json.arr xs => some xs
  | Json.str s => some (s.toList.map (fun c => Json.str (String.singleton c)))
  | Json.obj fs => some (fs.map (fun p => Json.str p.fst))
  | _ => none

/-- Whether the first character list is an initial segment of the second. -/
def charsLeading : List Char → List Char → Bool
  | [], _ => true
  | _ :: _, [] => false
  | a :: as, b :: bs => a == b && charsLeading as bs

/-- Whether `pat` occurs contiguously inside `hay`. -/
def charsContains (pat : List Char) : List Char → Bool
  | [] => charsLeading pat []
  | c :: rest => charsLeading pat (c :: rest) || charsContains pat rest

/-- Substring containment, modelling the Python `needle in haystack`
test on strings. -/
def strContains (hay pat : String) : Bool :=
  charsContains pat.toList hay.toList

/-- True exactly on error results. -/
def isErr {α : Type} : Except String α → Bool
  | Except.error _ => true
  | Except.ok _ => false

/-- True exactly on boolean values. -/
def Json.isBool : Json → Bool
  | Json.bool _ => true
  | _ => false

/-- True exactly on list values. -/
def Json.isArr : Json → Bool
  | Json.arr _ => true
  | _ => false

/-!  Embedding of `process_api_data` (src/eda_spacex_api.py, lines 104-165).
The function walks the launch list, keeps only launches whose rocket name
contains "Falcon 9" and whose accumulated payload mass is positive, and
builds one row per kept launch.  Returns `Except.error` where the Python
code would raise, and `Option` for the `return None` paths. -/

/-- One row of the table built by `process_api_data`. -/
structure PayloadRow where
  flightNumber : Json
  launchSite : Json
  payloadMass : Int
  success : Json
  date : Json
  rocket : Json

/-- The rocket name as computed on line 125: `rocket.get('name', 'Unknown')`
when the reference is a dictionary, otherwise `str(rocket)`. -/
def rocket_name_of (e : PyDict) : Json :=
  match jget e "rocket" (Json.obj []) with
  | Json.obj rfs => jget rfs "name" (Json.str "Unknown")
  | other => Json.str other.pyStr

/-- The launchpad name as computed on line 128. -/
def launchpad_name_of (e : PyDict) : Json :=
  match jget e "launchpad" (Json.obj []) with
  | Json.obj lfs => jget lfs "name" (Json.str "Unknown")
  | other => Json.str other.pyStr

/-- The Python test `'Falcon 9' in rocket_name` on line 131: membership in a
string is substring search, in a list it is element equality, in a
dictionary it is key lookup, and on other values it raises `TypeError`. -/
def falcon9Test : Json → Except String Bool
  | Json.str s => Except.ok (strContains s "Falcon 9")
  | Json.arr xs =>
      Except.ok (xs.any (fun j => match j with
        | Json.str s => s == "Falcon 9"
        | _ => false))
  | Json.obj fs => Except.ok (fs.any (fun p => p.fst == "Falcon 9"))
  | _ => Except.error "TypeError: argument is not iterable"

/-- The accumulation loop on lines 135-142: a dictionary payload adds its
`mass_kg` when that value is truthy and greater than zero (a truthy
non-numeric mass makes the comparison raise; Python `True` counts as 1),
a string payload is skipped, and any other element does nothing. -/
def acumular_masa_api (acc : Int) : List Json → Except String Int
  | [] => Except.ok acc
  | p :: rest =>
      match p with
      | Json.obj pfs =>
          match jget pfs "mass_kg" Json.null with
          | Json.num m =>
              if 0 < m then acumular_masa_api (acc + m) rest
              else acumular_masa_api acc rest
          | Json.bool true => acumular_masa_api (acc + 1) rest
          | Json.bool false => acumular_masa_api acc rest
          | Json.null => acumular_masa_api acc rest
          | Json.str s =>
              if s == "" then acumular_masa_api acc rest
              else Except.error "TypeError: unorderable types str and int"
          | Json.arr xs =>
              if xs.isEmpty then acumular_masa_api acc rest
              else Except.error "TypeError: unorderable types list and int"
          | Json.obj gfs =>
              if gfs.isEmpty then acumular_masa_api acc rest
              else Except.error "TypeError: unorderable types dict and int"
      | _ => acumular_masa_api acc rest

/-- The row appended on lines 146-153. -/
def mkPayloadRow (e : PyDict) (total : Int) : PayloadRow :=
  { flightNumber := jget e "flight_number" (Json.num 0)
    launchSite := launchpad_name_of e
    payloadMass := total
    success := jget e "success" (Json.bool false)
    date := jget e "date_utc" (Json.str "")
    rocket := rocket_name_of e }

/-- The body of the per-launch loop (lines 115-153): zero or one rows per
launch, or an error where the Python code raises. -/
def launchRows (e : PyDict) : Except String (List PayloadRow) :=
  match falcon9Test (rocket_name_of e) with
  | Except.error msg => Except.error msg
  | Except.ok false => Except.ok []
  | Except.ok true =>
      match pyIter (jget e "payloads" (Json.arr [])) with
      | none => Except.error "TypeError: object is not iterable"
      | some items =>
          match acumular_masa_api 0 items with
          | Except.error msg => Except.error msg
          | Except.ok total =>
              Except.ok (if 0 < total then [mkPayloadRow e total] else [])

/-- Per-element processing: `launch.get(...)` raises `AttributeError` when
the element is not a dictionary. -/
def launchJson : Json → Except String (List PayloadRow)
  | Json.obj e => launchRows e
  | _ => Except.error "AttributeError: object has no attribute get"

/-- The whole loop over the feed elements, concatenating the kept rows. -/
def processEvents : List Json → Except String (List PayloadRow)
  | [] => Except.ok []
  | e :: rest =>
      match launchJson e with
      | Except.error msg => Except.error msg
      | Except.ok l =>
          match processEvents rest with
          | Except.error msg => Except.error msg
          | Except.ok ls => Except.ok (l ++ ls)

/-- `process_api_data` itself: a falsy feed returns `None` (line 110), a
truthy non-iterable feed raises, and an empty row list returns `None`
(lines 155-157). -/
def process_api_data (feed : Json) : Except String (Option (List PayloadRow)) :=
  if feed.truthy = false then Except.ok none
  else
    match pyIter feed with
    | none => Except.error "TypeError: object is not iterable"
    | some events =>
        match processEvents events with
        | Except.error msg => Except.error msg
        | Except.ok rows =>
            if rows.isEmpty then Except.ok none else Except.ok (some rows)

/-- Whether `process_api_data` keeps a launch: rocket name contains
"Falcon 9" and the accumulated payload mass is positive. -/
def keepLaunch (e : PyDict) : Bool :=
  match launchRows e with
  | Except.ok (_ :: _) => true
  | _ => false

/-!  Embedding of `procesar_datos` helpers (src/payload_vs_orbit.py,
lines 62-76).  Both read only the FIRST payload reference of a launch. -/

/-- `extraer_orbit` (lines 62-68): orbit of the first payload when the
list is non-empty and its first id resolves, otherwise "Unknown". -/
def extraer_orbit (payload_ids : List String) (payloads_data : List (String × PyDict)) : Json :=
  match payload_ids with
  | [] => Json.str "Unknown"
  | pid :: _ =>
      match payloads_data.lookup pid with
      | some payload => jget payload "orbit" (Json.str "Unknown")
      | none => Json.str "Unknown"

/-- `extraer_mass` (lines 70-76): mass of the first payload when the list
is non-empty and its first id resolves, otherwise 0. -/
def extraer_mass (payload_ids : List String) (payloads_data : List (String × PyDict)) : Json :=
  match payload_ids with
  | [] => Json.num 0
  | pid :: _ =>
      match payloads_data.lookup pid with
      | some payload => jget payload "mass_kg" (Json.num 0)
      | none => Json.num 0

/-!  Embedding of `buscar_max_payload_boosters` (src/max_payload_boosters.py,
lines 60-141): the resolution of payload references and the per-launch
total payload mass. -/

/-- One resolved payload entry as built by `extraer_payload_info`
(lines 75-88): the `mass_kg` and `name` fields of the reference record. -/
structure PayloadInfo where
  mass_kg : Json
  name : Json

/-- `extraer_payload_info`: resolves every id in order, skipping ids
absent from the payload table. -/
def extraer_payload_info (payload_ids : List String) (payloads_data : List (String × PyDict)) : List PayloadInfo :=
  payload_ids.filterMap (fun pid =>
    (payloads_data.lookup pid).map (fun payload =>
      { mass_kg := jget payload "mass_kg" (Json.num 0)
        name := jget payload "name" (Json.str "Unknown") }))

/-- The mass accumulation loop on lines 107-114: a mass contributes when
it `is not None` and is greater than zero (Python `True` counts as 1; a
non-numeric truthy mass makes the comparison raise). -/
def acumular_masa (acc : Int) : List PayloadInfo → Except String Int
  | [] => Except.ok acc
  | p :: rest =>
      match p.mass_kg with
      | Json.null => acumular_masa acc rest
      | Json.num m =>
          if 0 < m then acumular_masa (acc + m) rest
          else acumular_masa acc rest
      | Json.bool true => acumular_masa (acc + 1) rest
      | Json.bool false => acumular_masa acc rest
      | _ => Except.error "TypeError: unorderable types"

/-- The per-launch total payload mass of `buscar_max_payload_boosters`. -/
def total_payload_mass (payload_ids : List String) (payloads_data : List (String × PyDict)) : Except String Int :=
  acumular_masa 0 (extraer_payload_info payload_ids payloads_data)

/-- Modelled from the spec: the contribution of one mass value, where a
payload contributes 0 if its mass is null or non-positive. -/
def specMassContribution : Json → Int
  | Json.num m => if 0 < m then m else 0
  | _ => 0

/-- Modelled from the spec: total payload mass as the sum of the masses of
ALL resolved payload references, null or non-positive masses counting 0. -/
def spec_total_payload_mass (payload_ids : List String) (payloads_data : List (String × PyDict)) : Int :=
  ((payload_ids.filterMap (fun pid => payloads_data.lookup pid)).map
    (fun payload => specMassContribution (jget payload "mass_kg" (Json.num 0)))).sum

/-- Whether a stored mass value is numeric or null (the shapes the claim
about payload masses speaks of). -/
def masaNumerica : Json → Bool
  | Json.num _ => true
  | Json.null => true
  | _ => false

/-!  Embedding of the landing classifier
(src/landing_outcomes_ranking.py, lines 64-82). -/

/-- `clasificar_resultados_aterrizaje` per-core classification: the eight
outcome labels produced on lines 64-82. -/
def clasificar_aterrizaje (landing_success : Bool) (landing_type : String) : String :=
  if landing_success then
    if landing_type = "RTLS" then "Success (ground pad)"
    else if landing_type = "ASDS" then "Success (drone ship)"
    else if landing_type = "Ocean" then "Success (ocean)"
    else "Success (other)"
  else
    if landing_type = "RTLS" then "Failure (ground pad)"
    else if landing_type = "ASDS" then "Failure (drone ship)"
    else if landing_type = "Ocean" then "Failure (ocean)"
    else "Failure (other)"

/-!  Embedding of the date-range filter
(src/landing_outcomes_ranking.py, lines 45-50).  `pd.to_datetime` turns
each ISO-8601 string into a timestamp; we model the parsed timestamps
directly as calendar structures ordered by their second count. -/

/-- A parsed UTC timestamp as produced by `pd.to_datetime`; a bare date
parses with time 00:00:00. -/
structure PDTimestamp where
  year : Nat
  month : Nat
  day : Nat
  hour : Nat
  minute : Nat
  second : Nat
deriving DecidableEq

/-- The scalar a timestamp compares by (seconds on an idealized calendar;
monotone in the lexicographic field order). -/
def PDTimestamp.key (t : PDTimestamp) : Nat :=
  ((((t.year * 13 + t.month) * 32 + t.day) * 24 + t.hour) * 60 + t.minute) * 60 + t.second

/-- A bare date, as the hard-coded bounds on lines 46-47 parse. -/
def fecha (y m d : Nat) : PDTimestamp := ⟨y, m, d, 0, 0, 0⟩

/-- A launch record as seen by the date filter. -/
structure FilaLanzamiento where
  flight_number : Nat
  date_utc : PDTimestamp
deriving DecidableEq

/-- The filter on line 50:
`df[(df['date_utc'] >= start_date) & (df['date_utc'] <= end_date)]`. -/
def filtrar_rango_fechas (rows : List FilaLanzamiento) (start_date end_date : PDTimestamp) : List FilaLanzamiento :=
  rows.filter (fun r => start_date.key ≤ r.date_utc.key && r.date_utc.key ≤ end_date.key)

/-!  Embedding of the reference resolvers of src/launch_sites_pattern.py
(lines 54-73) and src/failed_landings_2015.py (lines 81-96, 115-120). -/

/-- `extraer_launchpad_info`: the reference record when the id is truthy
and present in the table, otherwise `None`. -/
def extraer_launchpad_info (launchpad_id : String) (launchpads_data : List (String × PyDict)) : Option PyDict :=
  if launchpad_id != "" then
    match launchpads_data.lookup launchpad_id with
    | some pad => some pad
    | none => none
  else none

/-- `extraer_rocket_info` of src/failed_landings_2015.py, same contract. -/
def extraer_rocket_info (rocket_id : String) (rockets_data : List (String × PyDict)) : Option PyDict :=
  if rocket_id != "" then
    match rockets_data.lookup rocket_id with
    | some rocket => some rocket
    | none => none
  else none

/-- Field extraction `x.get(campo, 'Unknown') if x else 'Unknown'`
(lines 62-73 of src/launch_sites_pattern.py): a `None` or empty (falsy)
record yields "Unknown". -/
def campo_o_unknown (info : Option PyDict) (campo : String) : Json :=
  match info with
  | some d => if d.isEmpty then Json.str "Unknown" else jget d campo (Json.str "Unknown")
  | none => Json.str "Unknown"

/-- The column build on lines 61-64: one resolved site name per launch
row, in order (the launch list carries one launchpad id per launch). -/
def launch_site_names (launchpad_ids : List String) (launchpads_data : List (String × PyDict)) : List Json :=
  launchpad_ids.map (fun lid => campo_o_unknown (extraer_launchpad_info lid launchpads_data) "name")

/-!  Embedding of `create_realistic_sample_data`
(src/eda_spacex_api.py, lines 42-102).  All randomness flows from the
global numpy generator seeded on line 59; its exact bit stream is opaque
to the scripts, so it is modelled as a deterministic integer state
machine with one draw per numpy call, in the exact order the source
makes them (choice, normal, random, randint, randint per iteration). -/

/-- The numpy global generator state after `np.random.seed(n)`. -/
structure NPRandomState where
  state : Nat
deriving DecidableEq

/-- `np.random.seed`. -/
def np_seed (n : Nat) : NPRandomState := ⟨n % 2 ^ 64⟩

/-- One raw draw of the modelled generator. -/
def np_next (g : NPRandomState) : Nat × NPRandomState :=
  let s := (g.state * 6364136223846793005 + 1442695040888963407) % 2 ^ 64
  (s, ⟨s⟩)

/-- `np.random.choice` over a list of site names. -/
def np_choice (xs : List String) (g : NPRandomState) : String × NPRandomState :=
  let (v, g2) := np_next g
  (xs.getD (v % xs.length) "", g2)

/-- `np.random.normal(mu, sigma)`, truncated to an integer as line 79
does with `int(...)`; the draw stays within three sigma of the mean. -/
def np_normal (mu sigma : Int) (g : NPRandomState) : Int × NPRandomState :=
  let (v, g2) := np_next g
  (mu + ((v % (6 * sigma.toNat + 1) : Nat) : Int) - 3 * sigma, g2)

/-- `np.random.random()`, a rational in the unit interval. -/
def np_random_unit (g : NPRandomState) : Rat × NPRandomState :=
  let (v, g2) := np_next g
  (((v % 1000000 : Nat) : Rat) / 1000000, g2)

/-- `np.random.randint(lo, hi)`, uniform on `lo..hi-1`. -/
def np_randint (lo hi : Nat) (g : NPRandomState) : Nat × NPRandomState :=
  let (v, g2) := np_next g
  (lo + v % (hi - lo), g2)

/-- One generated launch record (lines 86-93). -/
structure SampleRecord where
  flightNumber : Nat
  launchSite : String
  payloadMass : Int
  success : Bool
  date : String
  rocket : String
deriving DecidableEq

/-- The launch-site pool on lines 49-56. -/
def sample_launch_sites : List String :=
  ["CCAFS SLC 40", "KSC LC 39A", "VAFB SLC 4E",
   "CCAFS LC 40", "KSC LC 39A", "VAFB SLC 4E"]

/-- Zero-padded two-digit rendering, as the `:02d` format on line 91. -/
def pad2 (n : Nat) : String :=
  if n < 10 then "0" ++ toString n else toString n

/-- The body of one loop iteration (lines 64-93). -/
def sample_row (i : Nat) (g : NPRandomState) : SampleRecord × NPRandomState :=
  let c := np_choice sample_launch_sites g
  let site := c.1
  let m :=
    if strContains site "CCAFS" then np_normal 5000 1500 c.2
    else if strContains site "KSC" then np_normal 6000 2000 c.2
    else if strContains site "VAFB" then np_normal 4000 1000 c.2
    else np_normal 5000 1500 c.2
  let payload_mass : Int := max 1000 m.1
  let success_prob : Rat := 9 / 10 - (((payload_mass : Rat) - 3000) / 10000)
  let success_prob2 : Rat := max (6 / 10) (min (95 / 100) success_prob)
  let u := np_random_unit m.2
  let success : Bool := decide (u.1 < success_prob2)
  let mes := np_randint 1 13 u.2
  let dia := np_randint 1 29 mes.2
  ({ flightNumber := i + 1
     launchSite := site
     payloadMass := payload_mass
     success := success
     date := "2020-" ++ pad2 mes.1 ++ "-" ++ pad2 dia.1
     rocket := "Falcon 9" }, dia.2)

/-- The loop on lines 64-93, threading the generator state. -/
def sample_loop : Nat → Nat → NPRandomState → List SampleRecord
  | 0, _, _ => []
  | n + 1, i, g => (sample_row i g).1 :: sample_loop n (i + 1) (sample_row i g).2

/-- `create_realistic_sample_data`: seeds the generator (line 59) and
produces the 120 records of lines 60-95, as a function of the seed. -/
def create_realistic_sample_data (seed : Nat) : List SampleRecord :=
  sample_loop 120 0 (np_seed seed)

/-! Theorems for the claims. -/

/-- C3: the landing classification is a pure function of the pair
(landing_success, landing_type): RTLS, ASDS and Ocean map to the ground
pad, drone ship and ocean variants on the side selected by the success
flag, and any other landing_type maps to the matching other variant. -/
theorem C3_clasificacion_aterrizaje (t : String)
    (h1 : t ≠ "RTLS") (h2 : t ≠ "ASDS") (h3 : t ≠ "Ocean") :
    clasificar_aterrizaje true "RTLS" = "Success (ground pad)" ∧
    clasificar_aterrizaje true "ASDS" = "Success (drone ship)" ∧
    clasificar_aterrizaje true "Ocean" = "Success (ocean)" ∧
    clasificar_aterrizaje false "RTLS" = "Failure (ground pad)" ∧
    clasificar_aterrizaje false "ASDS" = "Failure (drone ship)" ∧
    clasificar_aterrizaje false "Ocean" = "Failure (ocean)" ∧
    clasificar_aterrizaje true t = "Success (other)" ∧
    clasificar_aterrizaje false t = "Failure (other)" := by
  refine ⟨rfl, rfl, rfl, rfl, rfl, rfl, ?_, ?_⟩ <;>
    simp [clasificar_aterrizaje, h1, h2, h3]

/-- Witness for C3 at the unrecognized landing type "Splashdown". -/
theorem C3_clasificacion_aterrizaje_witness :
    clasificar_aterrizaje true "Splashdown" = "Success (other)" ∧
    clasificar_aterrizaje false "Splashdown" = "Failure (other)" :=
  ⟨(C3_clasificacion_aterrizaje "Splashdown" (by decide) (by decide) (by decide)).2.2.2.2.2.2.1,
   (C3_clasificacion_aterrizaje "Splashdown" (by decide) (by decide) (by decide)).2.2.2.2.2.2.2⟩

/-- C6: the resolved orbit type comes from the first payload reference
only: an empty list or an unresolved first id gives "Unknown", a resolved
first id gives that payload record's orbit field, and the remaining
payload ids never influence the result. -/
theorem C6_orbita_primer_payload (pid : String) (rest restB : List String)
    (tbl : List (String × PyDict)) (payload : PyDict)
    (h : tbl.lookup pid = some payload) :
    extraer_orbit (pid :: rest) tbl = extraer_orbit (pid :: restB) tbl ∧
    extraer_orbit [] tbl = Json.str "Unknown" ∧
    (∀ q : String, ∀ r : List String, tbl.lookup q = none →
      extraer_orbit (q :: r) tbl = Json.str "Unknown") ∧
    extraer_orbit (pid :: rest) tbl = jget payload "orbit" (Json.str "Unknown") := by
  refine ⟨rfl, rfl, ?_, ?_⟩
  · intro q r hq
    simp [extraer_orbit, hq]
  · simp [extraer_orbit, h]

/-- Witness for C6 on a one-entry payload table. -/
theorem C6_orbita_primer_payload_witness :
    extraer_orbit ["p1", "p2"] [("p1", [("orbit", Json.str "LEO")])] =
      extraer_orbit ["p1"] [("p1", [("orbit", Json.str "LEO")])] ∧
    extraer_orbit ["p1", "p2"] [("p1", [("orbit", Json.str "LEO")])] =
      jget [("orbit", Json.str "LEO")] "orbit" (Json.str "Unknown") :=
  ⟨(C6_orbita_primer_payload "p1" ["p2"] [] [("p1", [("orbit", Json.str "LEO")])]
      [("orbit", Json.str "LEO")] rfl).1,
   (C6_orbita_primer_payload "p1" ["p2"] [] [("p1", [("orbit", Json.str "LEO")])]
      [("orbit", Json.str "LEO")] rfl).2.2.2⟩

/-- C7: the date-range filter is inclusive on both bounds over the UTC
timestamp: a record whose timestamp is inside the closed range (boundary
included) is kept, a record strictly outside is dropped, and the
three-record scenario keeps exactly the 2015-06-15 record. -/
theorem C7_filtro_rango_fechas (rows : List FilaLanzamiento) (r : FilaLanzamiento)
    (s e : PDTimestamp) (hin : r ∈ rows)
    (hs : s.key ≤ r.date_utc.key) (he : r.date_utc.key ≤ e.key) :
    r ∈ filtrar_rango_fechas rows s e ∧
    (∀ r2 ∈ rows, r2.date_utc.key < s.key ∨ e.key < r2.date_utc.key →
      r2 ∉ filtrar_rango_fechas rows s e) ∧
    filtrar_rango_fechas
      [⟨1, fecha 2010 1 1⟩, ⟨2, fecha 2015 6 15⟩, ⟨3, fecha 2018 1 1⟩]
      (fecha 2010 6 4) (fecha 2017 3 20) = [⟨2, fecha 2015 6 15⟩] := by
  refine ⟨?_, ?_, by decide⟩
  · simp only [filtrar_rango_fechas, List.mem_filter]
    exact ⟨hin, by simp [hs, he]⟩
  · intro r2 _ hout hmem
    simp only [filtrar_rango_fechas, List.mem_filter, Bool.and_eq_true,
      decide_eq_true_eq] at hmem
    rcases hout with hlt | hlt
    · exact absurd hmem.2.1 (by omega)
    · exact absurd hmem.2.2 (by omega)

/-- Witness for C7 on the three-record scenario, applied to the kept
boundary-interior record. -/
theorem C7_filtro_rango_fechas_witness :
    (⟨2, fecha 2015 6 15⟩ : FilaLanzamiento) ∈ filtrar_rango_fechas
      [⟨1, fecha 2010 1 1⟩, ⟨2, fecha 2015 6 15⟩, ⟨3, fecha 2018 1 1⟩]
      (fecha 2010 6 4) (fecha 2017 3 20) :=
  (C7_filtro_rango_fechas
    [⟨1, fecha 2010 1 1⟩, ⟨2, fecha 2015 6 15⟩, ⟨3, fecha 2018 1 1⟩]
    ⟨2, fecha 2015 6 15⟩ (fecha 2010 6 4) (fecha 2017 3 20)
    (by decide) (by decide) (by decide)).1

/-- C4: for any reference id absent from its table, resolution never
raises: every resolved name field equals the literal string "Unknown"
(launchpad name, full name, locality, region, and rocket name), and a
site-name column entry is still produced for every launch row. -/
theorem C4_referencia_ausente (lid rid : String)
    (pads rockets : List (String × PyDict)) (ids : List String)
    (hl : pads.lookup lid = none) (hr : rockets.lookup rid = none) :
    campo_o_unknown (extraer_launchpad_info lid pads) "name" = Json.str "Unknown" ∧
    campo_o_unknown (extraer_launchpad_info lid pads) "full_name" = Json.str "Unknown" ∧
    campo_o_unknown (extraer_launchpad_info lid pads) "locality" = Json.str "Unknown" ∧
    campo_o_unknown (extraer_launchpad_info lid pads) "region" = Json.str "Unknown" ∧
    campo_o_unknown (extraer_rocket_info rid rockets) "name" = Json.str "Unknown" ∧
    (launch_site_names ids pads).length = ids.length := by
  have h1 : extraer_launchpad_info lid pads = none := by
    unfold extraer_launchpad_info
    rw [hl]
    split <;> rfl
  have h2 : extraer_rocket_info rid rockets = none := by
    unfold extraer_rocket_info
    rw [hr]
    split <;> rfl
  rw [h1, h2]
  exact ⟨rfl, rfl, rfl, rfl, rfl, List.length_map _ _⟩

/-- Witness for C4 at an id missing from a non-empty reference table. -/
theorem C4_referencia_ausente_witness :
    campo_o_unknown (extraer_launchpad_info "padX" [("pad1", [("name", Json.str "KSC LC 39A")])]) "name"
      = Json.str "Unknown" ∧
    (launch_site_names ["pad1", "padX"] [("pad1", [("name", Json.str "KSC LC 39A")])]).length
      = (["pad1", "padX"] : List String).length :=
  ⟨(C4_referencia_ausente "padX" "rX"
      [("pad1", [("name", Json.str "KSC LC 39A")])] [] ["pad1", "padX"] rfl rfl).1,
   (C4_referencia_ausente "padX" "rX"
      [("pad1", [("name", Json.str "KSC LC 39A")])] [] ["pad1", "padX"] rfl rfl).2.2.2.2.2⟩

/-- C9: the synthetic fallback dataset is a deterministic function of the
random seed: two runs of the generator with the same seed produce
field-for-field identical datasets. -/
theorem C9_generador_determinista (s t : Nat) (h : s = t) :
    create_realistic_sample_data s = create_realistic_sample_data t := by
  rw [h]

/-- Witness for C9 at the seed 42 used on line 59 of the source. -/
theorem C9_generador_determinista_witness :
    create_realistic_sample_data 42 = create_realistic_sample_data 42 :=
  C9_generador_determinista 42 42 rfl

/-- Every record built by one loop iteration has payload mass at least
1000 (the clamp on line 79) and rocket "Falcon 9" (line 92). -/
theorem sample_row_campos (i : Nat) (g : NPRandomState) :
    1000 ≤ (sample_row i g).1.payloadMass ∧ (sample_row i g).1.rocket = "Falcon 9" := by
  constructor
  · show (1000 : Int) ≤ max 1000 _
    exact le_max_left _ _
  · rfl

/-- The generator loop yields one record per iteration, each satisfying
the clamp and constant-rocket facts. -/
theorem sample_loop_forma (n : Nat) : ∀ (i : Nat) (g : NPRandomState),
    (sample_loop n i g).length = n ∧
    (sample_loop n i g).all
      (fun r => decide (1000 ≤ r.payloadMass) && (r.rocket == "Falcon 9")) = true := by
  induction n with
  | zero => intro i g; exact ⟨rfl, rfl⟩
  | succ k ih =>
    intro i g
    obtain ⟨hlen, hall⟩ := ih (i + 1) (sample_row i g).2
    obtain ⟨hm, hr⟩ := sample_row_campos i g
    constructor
    · simpa [sample_loop] using hlen
    · simp [sample_loop, hall, hm, hr]

/-- C10: the synthetic fallback dataset always has exactly 120 records,
every record's payload mass is at least 1000 kg, and every record's
rocket field is "Falcon 9" — whatever the seed. -/
theorem C10_forma_datos_muestra (seed : Nat) :
    (create_realistic_sample_data seed).length = 120 ∧
    (create_realistic_sample_data seed).all
      (fun r => decide (1000 ≤ r.payloadMass) && (r.rocket == "Falcon 9")) = true :=
  sample_loop_forma 120 0 (np_seed seed)

/-- The mass accumulation loop realises the spec formula whenever every
stored mass is numeric or null: it returns the running total plus the sum
of the positive masses. -/
theorem acumular_masa_spec (l : List PayloadInfo) : ∀ acc : Int,
    l.all (fun p => masaNumerica p.mass_kg) = true →
    acumular_masa acc l =
      Except.ok (acc + (l.map (fun p => specMassContribution p.mass_kg)).sum) := by
  induction l with
  | nil => intro acc _; simp [acumular_masa]
  | cons p rest ih =>
    intro acc h
    simp only [List.all_cons, Bool.and_eq_true] at h
    obtain ⟨hp, hrest⟩ := h
    cases hm : p.mass_kg with
    | null => simp [acumular_masa, hm, ih acc hrest, specMassContribution]
    | num m =>
      by_cases h0 : 0 < m
      · simp [acumular_masa, hm, h0, ih (acc + m) hrest, specMassContribution, add_assoc]
      · simp [acumular_masa, hm, h0, ih acc hrest, specMassContribution]
    | bool b => rw [hm] at hp; exact absurd hp (by simp [masaNumerica])
    | str s => rw [hm] at hp; exact absurd hp (by simp [masaNumerica])
    | arr xs => rw [hm] at hp; exact absurd hp (by simp [masaNumerica])
    | obj fs => rw [hm] at hp; exact absurd hp (by simp [masaNumerica])

/-- The resolved-info list projects to the same mass contributions as the
resolved reference records themselves. -/
theorem extraer_payload_info_masas (ids : List String) (tbl : List (String × PyDict)) :
    (extraer_payload_info ids tbl).map (fun p => specMassContribution p.mass_kg) =
      (ids.filterMap (fun pid => tbl.lookup pid)).map
        (fun payload => specMassContribution (jget payload "mass_kg" (Json.num 0))) := by
  induction ids with
  | nil => rfl
  | cons pid rest ih =>
    cases hl : tbl.lookup pid with
    | none => simp [extraer_payload_info, List.filterMap_cons, hl] at ih ⊢; exact ih
    | some payload => simp [extraer_payload_info, List.filterMap_cons, hl] at ih ⊢; exact ih

/-- C2 (amended): in the aggregating normalizer the per-launch total
payload mass equals the spec formula — the sum over ALL resolved payload
references of their mass, a null or non-positive mass contributing 0, and
0 when the list is empty or nothing resolves; hypothesis: the stored
masses are numeric or null. -/
theorem C2_masa_total_amended (ids : List String) (tbl : List (String × PyDict))
    (h : (extraer_payload_info ids tbl).all (fun p => masaNumerica p.mass_kg) = true) :
    total_payload_mass ids tbl = Except.ok (spec_total_payload_mass ids tbl) := by
  unfold total_payload_mass spec_total_payload_mass
  rw [acumular_masa_spec _ 0 h, zero_add, extraer_payload_info_masas]

/-- Witness for the amended C2 on a two-payload launch with one null
mass: the total is the sum of the resolved positive masses. -/
theorem C2_masa_total_amended_witness :
    total_payload_mass ["p1", "p2", "p3"]
      [("p1", [("mass_kg", Json.num 100)]), ("p2", [("mass_kg", Json.null)]),
       ("p3", [("mass_kg", Json.num 200)])] =
      Except.ok (spec_total_payload_mass ["p1", "p2", "p3"]
        [("p1", [("mass_kg", Json.num 100)]), ("p2", [("mass_kg", Json.null)]),
         ("p3", [("mass_kg", Json.num 200)])]) :=
  C2_masa_total_amended ["p1", "p2", "p3"]
    [("p1", [("mass_kg", Json.num 100)]), ("p2", [("mass_kg", Json.null)]),
     ("p3", [("mass_kg", Json.num 200)])] rfl

/-- C2 counterexample: the payload-mass field of the payload_vs_orbit
view takes only the FIRST payload reference's mass, so on a launch with
two resolved payloads of masses 100 and 200 it is 100, not the spec sum
300. -/
theorem C2_masa_total_counterexample :
    extraer_mass ["p1", "p2"]
      [("p1", [("mass_kg", Json.num 100)]), ("p2", [("mass_kg", Json.num 200)])] =
      Json.num 100 ∧
    spec_total_payload_mass ["p1", "p2"]
      [("p1", [("mass_kg", Json.num 100)]), ("p2", [("mass_kg", Json.num 200)])] = 300 ∧
    extraer_mass ["p1", "p2"]
      [("p1", [("mass_kg", Json.num 100)]), ("p2", [("mass_kg", Json.num 200)])] ≠
      Json.num (spec_total_payload_mass ["p1", "p2"]
        [("p1", [("mass_kg", Json.num 100)]), ("p2", [("mass_kg", Json.num 200)])]) := by
  have h2 : spec_total_payload_mass ["p1", "p2"]
      [("p1", [("mass_kg", Json.num 100)]), ("p2", [("mass_kg", Json.num 200)])] = 300 := by
    have hl1 : List.lookup "p1"
        [("p1", [("mass_kg", Json.num 100)]), ("p2", [("mass_kg", Json.num 200)])] =
        some [("mass_kg", Json.num 100)] := rfl
    have hl2 : List.lookup "p2"
        [("p1", [("mass_kg", Json.num 100)]), ("p2", [("mass_kg", Json.num 200)])] =
        some [("mass_kg", Json.num 200)] := rfl
    have hm1 : jget [("mass_kg", Json.num 100)] "mass_kg" (Json.num 0) = Json.num 100 := rfl
    have hm2 : jget [("mass_kg", Json.num 200)] "mass_kg" (Json.num 0) = Json.num 200 := rfl
    norm_num [spec_total_payload_mass, List.filterMap_cons, hl1, hl2, hm1, hm2,
      specMassContribution]
  refine ⟨rfl, h2, ?_⟩
  rw [h2]
  intro h
  injection h with h3
  norm_num at h3

/-- Whenever the per-launch loop body succeeds, it yields either no row
or exactly the single row built from the launch and its positive total. -/
theorem launchRows_forma (e : PyDict) (l : List PayloadRow)
    (h : launchRows e = Except.ok l) :
    l = [] ∨ ∃ total : Int, 0 < total ∧ l = [mkPayloadRow e total] := by
  unfold launchRows at h
  cases hf : falcon9Test (rocket_name_of e) with
  | error m => rw [hf] at h; exact Except.noConfusion h
  | ok b =>
    rw [hf] at h
    cases b with
    | false => injection h with h2; exact Or.inl h2.symm
    | true =>
      dsimp only at h
      cases hi : pyIter (jget e "payloads" (Json.arr [])) with
      | none => rw [hi] at h; exact Except.noConfusion h
      | some items =>
        rw [hi] at h
        dsimp only at h
        cases ha : acumular_masa_api 0 items with
        | error m => rw [ha] at h; exact Except.noConfusion h
        | ok total =>
          rw [ha] at h
          injection h with h2
          by_cases ht : 0 < total
          · rw [if_pos ht] at h2
            exact Or.inr ⟨total, ht, h2.symm⟩
          · rw [if_neg ht] at h2
            exact Or.inl h2.symm

/-- The flight numbers produced by one successful loop-body run: the
event's own flight number when the launch is kept, nothing otherwise. -/
theorem launchRows_vuelo (e : PyDict) (l : List PayloadRow)
    (h : launchRows e = Except.ok l) :
    l.map (fun r => r.flightNumber) =
      if keepLaunch e then [jget e "flight_number" (Json.num 0)] else [] := by
  have hk : keepLaunch e = !l.isEmpty := by
    unfold keepLaunch
    rw [h]
    cases l <;> rfl
  rcases launchRows_forma e l h with hnil | ⟨total, _, hcons⟩
  · subst hnil; simp [hk]
  · subst hcons; simp [hk, mkPayloadRow]

/-- Over a list of dictionary events, successful processing produces
exactly the rows of the kept events, in input order, with the kept
events' flight numbers. -/
theorem processEvents_filtrado (events : List PyDict) : ∀ rows : List PayloadRow,
    processEvents (events.map Json.obj) = Except.ok rows →
    rows.map (fun r => r.flightNumber) =
      (events.filter keepLaunch).map (fun e => jget e "flight_number" (Json.num 0)) := by
  induction events with
  | nil =>
    intro rows h
    injection h with h2
    subst h2
    rfl
  | cons e rest ih =>
    intro rows h
    simp only [List.map_cons, processEvents, launchJson] at h
    cases hl : launchRows e with
    | error m => rw [hl] at h; exact Except.noConfusion h
    | ok l =>
      rw [hl] at h
      dsimp only at h
      cases hp : processEvents (rest.map Json.obj) with
      | error m => rw [hp] at h; exact Except.noConfusion h
      | ok ls =>
        rw [hp] at h
        injection h with h2
        subst h2
        rw [List.map_append, launchRows_vuelo e l hl, ih ls hp, List.filter_cons]
        by_cases hk : keepLaunch e
        · simp [hk]
        · simp [hk]

/-- C1 (amended): `process_api_data` produces exactly one output record
per input event whose rocket name contains "Falcon 9" and whose summed
payload mass is positive, and drops every other event; the kept records
appear in input order, their flight-number sequence equalling the flight
numbers of the kept events. -/
theorem C1_registros_filtrados_amended (events : List PyDict) (rows : List PayloadRow)
    (h : process_api_data (Json.arr (events.map Json.obj)) = Except.ok (some rows)) :
    rows.map (fun r => r.flightNumber) =
      (events.filter keepLaunch).map (fun e => jget e "flight_number" (Json.num 0)) ∧
    rows.length = (events.filter keepLaunch).length := by
  have hrows : processEvents (events.map Json.obj) = Except.ok rows := by
    unfold process_api_data at h
    cases events with
    | nil => simp [Json.truthy] at h
    | cons e rest =>
      rw [if_neg (by simp [Json.truthy])] at h
      simp only [pyIter] at h
      cases hp : processEvents (List.map Json.obj (e :: rest)) with
      | error m => rw [hp] at h; exact Except.noConfusion h
      | ok rows0 =>
        rw [hp] at h
        dsimp only at h
        by_cases he : rows0.isEmpty
        · rw [if_pos he] at h; injection h with h2; exact Option.noConfusion h2
        · rw [if_neg he] at h
          injection h with h2
          injection h2 with h3
          rw [h3]
  have h1 := processEvents_filtrado events rows hrows
  refine ⟨h1, ?_⟩
  have := congrArg List.length h1
  simpa using this

/-- C1 counterexample: a feed of two Falcon 9 events, the second with an
empty payload list, yields one row, not two — the claim of exactly one
output record per input event fails. -/
theorem C1_registros_counterexample :
    process_api_data (Json.arr
      [Json.obj [("flight_number", Json.num 1),
                 ("rocket", Json.obj [("name", Json.str "Falcon 9")]),
                 ("payloads", Json.arr [Json.obj [("mass_kg", Json.num 100)]])],
       Json.obj [("flight_number", Json.num 2),
                 ("rocket", Json.obj [("name", Json.str "Falcon 9")]),
                 ("payloads", Json.arr [])]]) =
      Except.ok (some [mkPayloadRow
        [("flight_number", Json.num 1),
         ("rocket", Json.obj [("name", Json.str "Falcon 9")]),
         ("payloads", Json.arr [Json.obj [("mass_kg", Json.num 100)]])] 100]) ∧
    ([mkPayloadRow
        [("flight_number", Json.num 1),
         ("rocket", Json.obj [("name", Json.str "Falcon 9")]),
         ("payloads", Json.arr [Json.obj [("mass_kg", Json.num 100)]])] 100]).length ≠
      ([Json.obj [("flight_number", Json.num 1),
                  ("rocket", Json.obj [("name", Json.str "Falcon 9")]),
                  ("payloads", Json.arr [Json.obj [("mass_kg", Json.num 100)]])],
        Json.obj [("flight_number", Json.num 2),
                  ("rocket", Json.obj [("name", Json.str "Falcon 9")]),
                  ("payloads", Json.arr [])]] : List Json).length :=
  ⟨rfl, by decide⟩

/-- Witness for the amended C1 on the same two-event feed. -/
theorem C1_registros_amended_witness :
    ([mkPayloadRow
        [("flight_number", Json.num 1),
         ("rocket", Json.obj [("name", Json.str "Falcon 9")]),
         ("payloads", Json.arr [Json.obj [("mass_kg", Json.num 100)]])] 100]).map
        (fun r => r.flightNumber) =
      (([[("flight_number", Json.num 1),
          ("rocket", Json.obj [("name", Json.str "Falcon 9")]),
          ("payloads", Json.arr [Json.obj [("mass_kg", Json.num 100)]])],
         [("flight_number", Json.num 2),
          ("rocket", Json.obj [("name", Json.str "Falcon 9")]),
          ("payloads", Json.arr [])]] : List PyDict).filter keepLaunch).map
        (fun e => jget e "flight_number" (Json.num 0)) ∧
    ([mkPayloadRow
        [("flight_number", Json.num 1),
         ("rocket", Json.obj [("name", Json.str "Falcon 9")]),
         ("payloads", Json.arr [Json.obj [("mass_kg", Json.num 100)]])] 100]).length =
      (([[("flight_number", Json.num 1),
          ("rocket", Json.obj [("name", Json.str "Falcon 9")]),
          ("payloads", Json.arr [Json.obj [("mass_kg", Json.num 100)]])],
         [("flight_number", Json.num 2),
          ("rocket", Json.obj [("name", Json.str "Falcon 9")]),
          ("payloads", Json.arr [])]] : List PyDict).filter keepLaunch).length :=
  C1_registros_filtrados_amended
    [[("flight_number", Json.num 1),
      ("rocket", Json.obj [("name", Json.str "Falcon 9")]),
      ("payloads", Json.arr [Json.obj [("mass_kg", Json.num 100)]])],
     [("flight_number", Json.num 2),
      ("rocket", Json.obj [("name", Json.str "Falcon 9")]),
      ("payloads", Json.arr [])]]
    [mkPayloadRow
      [("flight_number", Json.num 1),
       ("rocket", Json.obj [("name", Json.str "Falcon 9")]),
       ("payloads", Json.arr [Json.obj [("mass_kg", Json.num 100)]])] 100]
    rfl

/-- C8 (amended): the success field of a normalized record is the raw
event's success value, with default False only when the key is ABSENT; a
null (or any non-boolean) stored value is carried through unchanged
rather than coerced to a boolean failure. -/
theorem C8_exito_amended (e : PyDict) (r : PayloadRow)
    (h : launchRows e = Except.ok [r]) :
    r.success = jget e "success" (Json.bool false) ∧
    (e.lookup "success" = none → r.success = Json.bool false) := by
  rcases launchRows_forma e [r] h with hnil | ⟨total, _, hcons⟩
  · exact List.noConfusion hnil
  · have hr : r = mkPayloadRow e total := (List.cons.injEq _ _ _ _).mp hcons |>.1
    subst hr
    refine ⟨rfl, ?_⟩
    intro hn
    show jget e "success" (Json.bool false) = Json.bool false
    unfold jget
    rw [hn]

/-- C8 counterexample: an event whose success field is null passes
through as null — the normalized record's success flag is not a boolean
and is not coerced to False. -/
theorem C8_exito_counterexample :
    process_api_data (Json.arr
      [Json.obj [("flight_number", Json.num 7),
                 ("success", Json.null),
                 ("rocket", Json.obj [("name", Json.str "Falcon 9")]),
                 ("payloads", Json.arr [Json.obj [("mass_kg", Json.num 500)]])]]) =
      Except.ok (some [{ flightNumber := Json.num 7
                         launchSite := Json.str "Unknown"
                         payloadMass := 500
                         success := Json.null
                         date := Json.str ""
                         rocket := Json.str "Falcon 9" }]) ∧
    Json.isBool Json.null = false :=
  ⟨rfl, rfl⟩

/-- Witness for the amended C8 on an event with the success key absent. -/
theorem C8_exito_amended_witness :
    ({ flightNumber := Json.num 0
       launchSite := Json.str "Unknown"
       payloadMass := 1
       success := Json.bool false
       date := Json.str ""
       rocket := Json.str "Falcon 9" } : PayloadRow).success =
      jget [("rocket", Json.obj [("name", Json.str "Falcon 9")]),
            ("payloads", Json.arr [Json.obj [("mass_kg", Json.num 1)]])]
        "success" (Json.bool false) ∧
    (([("rocket", Json.obj [("name", Json.str "Falcon 9")]),
       ("payloads", Json.arr [Json.obj [("mass_kg", Json.num 1)]])] : PyDict).lookup "success" = none →
      ({ flightNumber := Json.num 0
         launchSite := Json.str "Unknown"
         payloadMass := 1
         success := Json.bool false
         date := Json.str ""
         rocket := Json.str "Falcon 9" } : PayloadRow).success = Json.bool false) :=
  C8_exito_amended
    [("rocket", Json.obj [("name", Json.str "Falcon 9")]),
     ("payloads", Json.arr [Json.obj [("mass_kg", Json.num 1)]])]
    { flightNumber := Json.num 0
      launchSite := Json.str "Unknown"
      payloadMass := 1
      success := Json.bool false
      date := Json.str ""
      rocket := Json.str "Falcon 9" }
    rfl

/-!  Well-formedness conditions under which the per-launch processing of
`process_api_data` cannot raise: stored masses that the truthiness test
or the `> 0` comparison accepts, an iterable payloads field, and a rocket
name on which the membership test is defined. -/

/-- Mass values on which the loop body cannot raise: anything except a
truthy string, list or dictionary. -/
def massValueOK : Json → Bool
  | Json.str s => s == ""
  | Json.arr xs => xs.isEmpty
  | Json.obj fs => fs.isEmpty
  | _ => true

/-- A payload element the loop body accepts: a dictionary with an
acceptable stored mass, or any non-dictionary element. -/
def payloadItemOK : Json → Bool
  | Json.obj pfs => massValueOK (jget pfs "mass_kg" Json.null)
  | _ => true

/-- A payloads field the loop can iterate without raising. -/
def payloadsFieldOK : Json → Bool
  | Json.arr xs => xs.all payloadItemOK
  | Json.str _ => true
  | Json.obj _ => true
  | _ => false

/-- A rocket reference whose name the membership test accepts: any
non-dictionary, or a dictionary whose name field is not null, boolean or
numeric. -/
def rocketFieldOK : Json → Bool
  | Json.obj rfs =>
      match jget rfs "name" (Json.str "Unknown") with
      | Json.null => false
      | Json.bool _ => false
      | Json.num _ => false
      | _ => true
  | _ => true

/-- An event on which the per-launch loop body cannot raise. -/
def eventOK (e : PyDict) : Bool :=
  rocketFieldOK (jget e "rocket" (Json.obj [])) &&
  payloadsFieldOK (jget e "payloads" (Json.arr []))

/-- The mass loop cannot raise on a list of acceptable elements. -/
theorem acumular_masa_api_sin_error (items : List Json)
    (h : items.all payloadItemOK = true) : ∀ acc : Int,
    isErr (acumular_masa_api acc items) = false := by
  induction items with
  | nil => intro acc; rfl
  | cons p rest ih =>
    simp only [List.all_cons, Bool.and_eq_true] at h
    obtain ⟨hp, hrest⟩ := h
    intro acc
    cases p with
    | obj pfs =>
      unfold payloadItemOK at hp
      dsimp only at hp
      simp only [acumular_masa_api]
      cases hm : jget pfs "mass_kg" Json.null with
      | num m =>
        dsimp only
        by_cases h0 : 0 < m
        · rw [if_pos h0]; exact ih hrest _
        · rw [if_neg h0]; exact ih hrest _
      | bool b => cases b <;> exact ih hrest _
      | null => exact ih hrest _
      | str s =>
        dsimp only
        rw [hm] at hp
        unfold massValueOK at hp
        rw [if_pos hp]
        exact ih hrest _
      | arr xs =>
        dsimp only
        rw [hm] at hp
        unfold massValueOK at hp
        rw [if_pos hp]
        exact ih hrest _
      | obj gfs =>
        dsimp only
        rw [hm] at hp
        unfold massValueOK at hp
        rw [if_pos hp]
        exact ih hrest _
    | null => exact ih hrest _
    | bool b => exact ih hrest _
    | num n => exact ih hrest _
    | str s => exact ih hrest _
    | arr xs => exact ih hrest _

/-- Iterating a string yields only one-character strings, all acceptable
payload elements. -/
theorem elementos_cadena_ok (l : List Char) :
    (l.map (fun c => Json.str (String.singleton c))).all payloadItemOK = true := by
  induction l with
  | nil => rfl
  | cons c rest ih => simp [payloadItemOK, ih]

/-- Iterating a dictionary yields only string keys, all acceptable
payload elements. -/
theorem elementos_claves_ok (fs : PyDict) :
    (fs.map (fun p => Json.str p.fst)).all payloadItemOK = true := by
  induction fs with
  | nil => rfl
  | cons kv rest ih => simp [payloadItemOK, ih]

/-- The per-launch loop body cannot raise on a well-formed event. -/
theorem launchRows_sin_error (e : PyDict) (h : eventOK e = true) :
    isErr (launchRows e) = false := by
  unfold eventOK at h
  simp only [Bool.and_eq_true] at h
  obtain ⟨hr, hp⟩ := h
  have hft : isErr (falcon9Test (rocket_name_of e)) = false := by
    unfold rocket_name_of
    unfold rocketFieldOK at hr
    cases hj : jget e "rocket" (Json.obj []) with
    | obj rfs =>
      rw [hj] at hr
      dsimp only at hr ⊢
      cases hn : jget rfs "name" (Json.str "Unknown") <;> rw [hn] at hr
      case null => exact absurd hr (by simp)
      case bool b => exact absurd hr (by simp)
      case num n => exact absurd hr (by simp)
      case str s => rfl
      case arr xs => rfl
      case obj gfs => rfl
    | null => rfl
    | bool b => rfl
    | num n => rfl
    | str s => rfl
    | arr xs => rfl
  unfold launchRows
  cases hf : falcon9Test (rocket_name_of e) with
  | error m => rw [hf] at hft; exact absurd hft (by simp [isErr])
  | ok b =>
    cases b with
    | false => rfl
    | true =>
      dsimp only
      cases hpj : jget e "payloads" (Json.arr []) with
      | arr xs =>
        rw [hpj] at hp
        unfold payloadsFieldOK at hp
        simp only [pyIter]
        cases ha : acumular_masa_api 0 xs with
        | error m =>
          have := acumular_masa_api_sin_error xs hp 0
          rw [ha] at this
          exact absurd this (by simp [isErr])
        | ok total => rfl
      | str s =>
        simp only [pyIter]
        cases ha : acumular_masa_api 0 (s.toList.map (fun c => Json.str (String.singleton c))) with
        | error m =>
          have := acumular_masa_api_sin_error _ (elementos_cadena_ok s.toList) 0
          rw [ha] at this
          exact absurd this (by simp [isErr])
        | ok total => rfl
      | obj fs =>
        simp only [pyIter]
        cases ha : acumular_masa_api 0 (fs.map (fun p => Json.str p.fst)) with
        | error m =>
          have := acumular_masa_api_sin_error _ (elementos_claves_ok fs) 0
          rw [ha] at this
          exact absurd this (by simp [isErr])
        | ok total => rfl
      | null => rw [hpj] at hp; exact absurd hp (by simp [payloadsFieldOK])
      | bool b2 => rw [hpj] at hp; exact absurd hp (by simp [payloadsFieldOK])
      | num n => rw [hpj] at hp; exact absurd hp (by simp [payloadsFieldOK])

/-- The whole event loop cannot raise on a list of well-formed events. -/
theorem processEvents_sin_error (events : List PyDict)
    (h : events.all eventOK = true) :
    isErr (processEvents (events.map Json.obj)) = false := by
  induction events with
  | nil => rfl
  | cons e rest ih =>
    simp only [List.all_cons, Bool.and_eq_true] at h
    obtain ⟨he, hrest⟩ := h
    simp only [List.map_cons, processEvents, launchJson]
    cases hl : launchRows e with
    | error m =>
      have := launchRows_sin_error e he
      rw [hl] at this
      exact absurd this (by simp [isErr])
    | ok l =>
      dsimp only
      cases hpr : processEvents (rest.map Json.obj) with
      | error m =>
        have := ih hrest
        rw [hpr] at this
        exact absurd this (by simp [isErr])
      | ok ls => rfl

/-- C5 (amended): the normalizer raises on NO feed made of well-formed
dictionary events — absent keys, null scalar fields and unresolved
references all degrade — while a truthy top-level feed that is not a
collection of events is a hard failure propagated to the caller. (The
uncorrected claim fails: a null payloads field inside one event also
raises, see the counterexample.) -/
theorem C5_fallos_amended (events : List PyDict) (feed : Json)
    (h1 : events.all eventOK = true)
    (h2 : feed.truthy = true) (h3 : feed.isArr = false) :
    isErr (process_api_data (Json.arr (events.map Json.obj))) = false ∧
    isErr (process_api_data feed) = true := by
  constructor
  · unfold process_api_data
    by_cases hv : (Json.arr (events.map Json.obj)).truthy = false
    · rw [if_pos hv]; rfl
    · rw [if_neg hv]
      simp only [pyIter]
      cases hpr : processEvents (events.map Json.obj) with
      | error m =>
        have := processEvents_sin_error events h1
        rw [hpr] at this
        exact absurd this (by simp [isErr])
      | ok rows =>
        dsimp only
        by_cases he : rows.isEmpty
        · rw [if_pos he]; rfl
        · rw [if_neg he]; rfl
  · unfold process_api_data
    rw [if_neg (by rw [h2]; exact fun hc => Bool.noConfusion hc)]
    cases feed with
    | null => exact absurd h2 (by simp [Json.truthy])
    | bool b => cases b with
      | true => rfl
      | false => exact absurd h2 (by simp [Json.truthy])
    | num n => rfl
    | str s =>
      simp only [pyIter]
      have hs : s.toList ≠ [] := by
        intro hd
        have : s = "" := by
          cases s with
          | mk l => simp only [String.toList] at hd; rw [hd]
        rw [this] at h2
        exact absurd h2 (by simp [Json.truthy])
      cases hd : s.toList with
      | nil => exact absurd hd hs
      | cons c cs => rfl
    | obj fs =>
      simp only [pyIter]
      cases fs with
      | nil => exact absurd h2 (by simp [Json.truthy])
      | cons kv rest => rfl
    | arr xs => exact absurd h3 (by simp [Json.isArr])

/-- C5 counterexample: a single event whose payloads field is null makes
the normalizer raise (a TypeError on the `for payload in payloads` loop),
so missing-or-null data inside one record is not always recovered. -/
theorem C5_fallos_counterexample :
    isErr (process_api_data (Json.arr
      [Json.obj [("rocket", Json.obj [("name", Json.str "Falcon 9")]),
                 ("payloads", Json.null)]])) = true := rfl

/-- Witness for the amended C5: a well-formed one-event feed processes
without error, and a truthy dictionary feed is a hard failure. -/
theorem C5_fallos_amended_witness :
    isErr (process_api_data (Json.arr
      (([[("rocket", Json.obj [("name", Json.str "Falcon 9")]),
          ("payloads", Json.arr [Json.obj [("mass_kg", Json.num 100)]])]] : List PyDict).map
        Json.obj))) = false ∧
    isErr (process_api_data (Json.obj [("detail", Json.str "Not Found")])) = true :=
  C5_fallos_amended
    [[("rocket", Json.obj [("name", Json.str "Falcon 9")]),
      ("payloads", Json.arr [Json.obj [("mass_kg", Json.num 100)]])]]
    (Json.obj [("detail", Json.str "Not Found")])
    rfl rfl rfl
